import Mathlib

/-!
Verification of the MCP caching layer and the question-answering workflow of
the robotics-chatbot repository (`backend/mcp_store.py`, `backend/summarizer.py`),
as a shallow embedding in Lean 4.

Conventions of the embedding:
* Python `datetime` values are modelled as `Int` seconds; `timedelta(days = d)`
  is `d * 86400` seconds; `timedelta.days` is flooring division by 86400
  (`Int.fdiv`), matching Python's floor semantics for negative deltas.
* A timestamp string stored in metadata is modelled by `TS`: `TS.empty` for a
  missing or empty string (`entry.get("timestamp", "")` falsy), `TS.invalid`
  for a non-empty string `datetime.fromisoformat` rejects, and `TS.valid t`
  for a parseable one denoting time `t`.
* JSON dictionaries that the workflow returns are association lists
  `List (String × Value)`; the JSON files on disk are modelled by `FileContent`.
* `hashlib.md5(...).hexdigest()` is modelled by a full RFC 1321 MD5 over the
  UTF-8 bytes of the input string.
-/

/-! ### Bytes, UTF-8, and MD5 (model of `hashlib.md5(content.encode()).hexdigest()`) -/

def u32 : Nat := 4294967296

/-- 32-bit bitwise complement. -/
def not32 (x : Nat) : Nat := x ^^^ (u32 - 1)

/-- Rotate a 32-bit word left by `n`. -/
def rotl32 (x n : Nat) : Nat := (((x <<< n) % u32) ||| (x >>> (32 - n)))

/-- Little-endian byte serialisation of `v` on `n` bytes. -/
def leBytes : Nat → Nat → List Nat
  | 0, _ => []
  | n + 1, v => (v % 256) :: leBytes n (v / 256)

/-- Group a byte list into little-endian 32-bit words (trailing bytes dropped;
MD5 only applies this to 64-byte blocks). -/
def toLEWords : List Nat → List Nat
  | b0 :: b1 :: b2 :: b3 :: rest =>
      (b0 + 256 * b1 + 65536 * b2 + 16777216 * b3) :: toLEWords rest
  | _ => []

/-- MD5 per-round left-rotation amounts. -/
def md5S : List Nat :=
  [7, 12, 17, 22, 7, 12, 17, 22, 7, 12, 17, 22, 7, 12, 17, 22,
   5, 9, 14, 20, 5, 9, 14, 20, 5, 9, 14, 20, 5, 9, 14, 20,
   4, 11, 16, 23, 4, 11, 16, 23, 4, 11, 16, 23, 4, 11, 16, 23,
   6, 10, 15, 21, 6, 10, 15, 21, 6, 10, 15, 21, 6, 10, 15, 21]

/-- MD5 additive constants `floor(2^32 * abs(sin(i + 1)))`. -/
def md5K : List Nat :=
  [0xd76aa478, 0xe8c7b756, 0x242070db, 0xc1bdceee,
   0xf57c0faf, 0x4787c62a, 0xa8304613, 0xfd469501,
   0x698098d8, 0x8b44f7af, 0xffff5bb1, 0x895cd7be,
   0x6b901122, 0xfd987193, 0xa679438e, 0x49b40821,
   0xf61e2562, 0xc040b340, 0x265e5a51, 0xe9b6c7aa,
   0xd62f105d, 0x02441453, 0xd8a1e681, 0xe7d3fbc8,
   0x21e1cde6, 0xc33707d6, 0xf4d50d87, 0x455a14ed,
   0xa9e3e905, 0xfcefa3f8, 0x676f02d9, 0x8d2a4c8a,
   0xfffa3942, 0x8771f681, 0x6d9d6122, 0xfde5380c,
   0xa4beea44, 0x4bdecfa9, 0xf6bb4b60, 0xbebfbc70,
   0x289b7ec6, 0xeaa127fa, 0xd4ef3085, 0x04881d05,
   0xd9d4d039, 0xe6db99e5, 0x1fa27cf8, 0xc4ac5665,
   0xf4292244, 0x432aff97, 0xab9423a7, 0xfc93a039,
   0x655b59c3, 0x8f0ccc92, 0xffeff47d, 0x85845dd1,
   0x6fa87e4f, 0xfe2ce6e0, 0xa3014314, 0x4e0811a1,
   0xf7537e82, 0xbd3af235, 0x2ad7d2bb, 0xeb86d391]

/-- One MD5 round on state `(a, b, c, d)` with message words `M`. -/
def md5Round (M : List Nat) (st : Nat × Nat × Nat × Nat) (i : Nat) :
    Nat × Nat × Nat × Nat :=
  let a := st.1; let b := st.2.1; let c := st.2.2.1; let d := st.2.2.2
  let fg : Nat × Nat :=
    if i < 16 then ((b &&& c) ||| (not32 b &&& d), i)
    else if i < 32 then ((d &&& b) ||| (not32 d &&& c), (5 * i + 1) % 16)
    else if i < 48 then (b ^^^ c ^^^ d, (3 * i + 5) % 16)
    else (c ^^^ (b ||| not32 d), (7 * i) % 16)
  let f := (fg.1 + a + md5K.getD i 0 + M.getD fg.2 0) % u32
  (d, (b + rotl32 f (md5S.getD i 0)) % u32, b, c)

/-- MD5 compression of one 64-byte block. -/
def md5Compress (st : Nat × Nat × Nat × Nat) (block : List Nat) :
    Nat × Nat × Nat × Nat :=
  let M := toLEWords block
  let r := (List.range 64).foldl (md5Round M) st
  ((st.1 + r.1) % u32, (st.2.1 + r.2.1) % u32,
   (st.2.2.1 + r.2.2.1) % u32, (st.2.2.2 + r.2.2.2) % u32)

/-- Fold the compression function over consecutive 64-byte blocks; the fuel
argument (an upper bound on the number of blocks) makes the recursion
structural. -/
def md5BlocksAux : Nat → (Nat × Nat × Nat × Nat) → List Nat → Nat × Nat × Nat × Nat
  | 0, st, _ => st
  | _, st, [] => st
  | fuel + 1, st, l => md5BlocksAux fuel (md5Compress st (l.take 64)) (l.drop 64)

/-- Fold the compression function over consecutive 64-byte blocks. -/
def md5Blocks (st : Nat × Nat × Nat × Nat) (l : List Nat) :
    Nat × Nat × Nat × Nat :=
  md5BlocksAux (l.length / 64 + 1) st l

/-- MD5 padding: a `0x80` byte, zeros to 56 mod 64, then the 64-bit
little-endian bit length. -/
def md5Pad (msg : List Nat) : List Nat :=
  msg ++ [128] ++ List.replicate ((120 - (msg.length + 1) % 64) % 64) 0
      ++ leBytes 8 (8 * msg.length)

def hexDigit (n : Nat) : Char :=
  if n < 10 then Char.ofNat (48 + n) else Char.ofNat (87 + n)

/-- Lowercase hex rendering of a byte list, two digits per byte. -/
def bytesToHexChars : List Nat → List Char
  | [] => []
  | b :: r => hexDigit (b / 16) :: hexDigit (b % 16) :: bytesToHexChars r

/-- The 32-character hex digest built from the four final state words. -/
def digestHex (a b c d : Nat) : String :=
  String.mk (bytesToHexChars (leBytes 4 a ++ leBytes 4 b ++ leBytes 4 c ++ leBytes 4 d))

/-- RFC 1321 MD5 hex digest of a byte list (model of
`hashlib.md5(bytes).hexdigest()`). -/
def md5Hex (msg : List Nat) : String :=
  let r := md5Blocks (0x67452301, 0xefcdab89, 0x98badcfe, 0x10325476) (md5Pad msg)
  digestHex r.1 r.2.1 r.2.2.1 r.2.2.2

/-- UTF-8 encoding of one character (model of Python `str.encode()`). -/
def utf8Bytes (c : Char) : List Nat :=
  let n := c.toNat
  if n < 0x80 then [n]
  else if n < 0x800 then [0xc0 + n / 64, 0x80 + n % 64]
  else if n < 0x10000 then
    [0xe0 + n / 4096, 0x80 + (n / 64) % 64, 0x80 + n % 64]
  else
    [0xf0 + n / 262144, 0x80 + (n / 4096) % 64, 0x80 + (n / 64) % 64, 0x80 + n % 64]

/-- UTF-8 bytes of a string. -/
def strBytes (s : String) : List Nat := s.data.flatMap utf8Bytes

/-! ### Python string primitives used by the store -/

/-- Model of Python `str.lower()` (ASCII case mapping suffices for the inputs
the store handles). -/
def pyLower (s : String) : String := String.mk (s.data.map Char.toLower)

/-- Whitespace characters stripped by Python `str.strip()`. -/
def pyIsSpace (c : Char) : Bool :=
  c == ' ' || c == '\t' || c == '\n' || c == '\x0b' || c == '\x0c' || c == '\r'

/-- Model of Python `str.strip()`: drop leading and trailing whitespace. -/
def pyStrip (s : String) : String :=
  String.mk (((s.data.dropWhile pyIsSpace).reverse.dropWhile pyIsSpace).reverse)

/-- `needle in haystack` on character lists: does `hay` start with `needle`? -/
def leadsWith : List Char → List Char → Bool
  | [], _ => true
  | _ :: _, [] => false
  | a :: l, b :: m => a == b && leadsWith l m

/-- Substring occurrence on character lists. -/
def containsSub (needle : List Char) : List Char → Bool
  | [] => needle.isEmpty
  | b :: m => leadsWith needle (b :: m) || containsSub needle m

/-- Model of Python `needle in haystack` for strings. -/
def pyContains (haystack needle : String) : Bool :=
  containsSub needle.data haystack.data

/-! ### Cache-key derivation (`MCPStore._generate_cache_key`) -/

/-- The pre-digest encoding that `_generate_cache_key` feeds to MD5:
`f"{topic.lower().strip()}_{source_url}"`. -/
def cacheKeyContent (topic sourceUrl : String) : String :=
  pyStrip (pyLower topic) ++ "_" ++ sourceUrl

/-- `MCPStore._generate_cache_key`: MD5 hex digest of the encoded pair. -/
def generateCacheKey (topic sourceUrl : String) : String :=
  md5Hex (strBytes (cacheKeyContent topic sourceUrl))

/-! ### Data model of the MCP store (`backend/mcp_store.py`) -/

/-- Parse status of a stored timestamp string: `empty` models a missing key or
empty string (`entry.get("timestamp", "")` falsy), `invalid` a non-empty string
rejected by `datetime.fromisoformat`, `valid t` a parseable one denoting `t`
seconds. -/
inductive TS where
  | empty
  | invalid
  | valid (t : Int)
deriving DecidableEq, Repr

/-- A cached document as produced by the fetchers; documents are stored and
returned verbatim by the store, so the exact field set is immaterial to the
store's behaviour. -/
structure Doc where
  content : String
  title : String
  source : String
  url : String
  authors : List String
  published : String
  arxiv_id : String
  relevance_score : Int
deriving DecidableEq, Repr

/-- A metadata entry (`cache_entry` dict in `cache_content`). -/
structure CacheEntry where
  topic : String
  source_url : String
  source_type : String
  timestamp : TS
  document_count : Nat
  cache_key : String
deriving DecidableEq, Repr

/-- Contents of a per-key document batch file `{key}.json`: either readable
JSON (the document list plus the metadata entry it was written with) or a file
that exists but cannot be read or parsed. A missing file is modelled by
absence from the file map. -/
inductive FileContent where
  | corrupt
  | good (documents : List Doc) (metadata : CacheEntry)
deriving DecidableEq, Repr

/-- The store state: the `expiry_days` setting, the metadata index
(`mcp_metadata.json`, kept in memory and persisted on every `_save_metadata`),
and the per-key batch files in the cache directory. -/
structure MCPState where
  expiry_days : Int
  metadata : List (String × CacheEntry)
  files : List (String × FileContent)
deriving DecidableEq, Repr

/-- `MCPStore.__init__` default for `expiry_days`. -/
def defaultExpiryDays : Int := 30

/-- Dictionary lookup on an association list. -/
def lookupA {α : Type} : List (String × α) → String → Option α
  | [], _ => none
  | (k', v) :: t, k => if k' = k then some v else lookupA t k

/-- Dictionary update `d[k] = v` (replaces any previous binding). -/
def insertA {α : Type} (l : List (String × α)) (k : String) (v : α) :
    List (String × α) :=
  (k, v) :: l.filter (fun p => p.1 != k)

/-- Contents of `mcp_metadata.json` on disk at construction time. -/
inductive MetaFile where
  | absent
  | corrupt
  | good (m : List (String × CacheEntry))
deriving Repr

/-- `MCPStore._load_metadata`: a missing file or any read/parse failure yields
the empty dictionary. -/
def loadMetadata : MetaFile → List (String × CacheEntry)
  | .absent => []
  | .corrupt => []
  | .good m => m

/-- `MCPStore.__init__`: load the metadata index from disk. -/
def mkStore (disk : MetaFile) (files : List (String × FileContent))
    (expiry_days : Int) : MCPState :=
  { expiry_days := expiry_days, metadata := loadMetadata disk, files := files }

/-! ### Expiry and age (`_is_expired`, `_get_cache_age`) -/

/-- `MCPStore._is_expired`: `datetime.now() > cache_time + timedelta(days =
expiry_days)`; any parse failure (missing, empty or malformed timestamp) is
caught and reported as expired. -/
def isExpired (expiry_days now : Int) : TS → Bool
  | .valid t => decide (now > t + expiry_days * 86400)
  | _ => true

/-- `MCPStore._get_cache_age`: human-readable age; `timedelta.days` is the
floored day count and `timedelta.seconds` the remaining seconds in `[0, 86400)`. -/
def getCacheAge (now : Int) : TS → String
  | .valid t =>
      let days := (now - t).fdiv 86400
      let seconds := (now - t).emod 86400
      if days > 0 then toString days ++ " days ago"
      else if seconds > 3600 then toString (seconds / 3600) ++ " hours ago"
      else toString (seconds / 60) ++ " minutes ago"
  | _ => "unknown"

/-! ### Read and write paths (`get_cached_content`, `cache_content`) -/

/-- What `get_cached_content` hands back on a hit: the parsed batch file with
`source` and `cache_age` fields added. -/
structure CachedData where
  documents : List Doc
  metadata : CacheEntry
  source : String
  cache_age : String
deriving DecidableEq, Repr

/-- `MCPStore.get_cached_content`: absent unless the key is in the metadata
index, not expired, and the batch file exists and parses. -/
def getCachedContent (st : MCPState) (now : Int) (topic sourceUrl : String) :
    Option CachedData :=
  let cache_key := generateCacheKey topic sourceUrl
  match lookupA st.metadata cache_key with
  | none => none
  | some entry =>
      if isExpired st.expiry_days now entry.timestamp then none
      else
        match lookupA st.files cache_key with
        | some (.good docs meta) =>
            some { documents := docs, metadata := meta, source := "mcp_cache",
                   cache_age := getCacheAge now entry.timestamp }
        | some .corrupt => none
        | none => none

/-- `MCPStore.cache_content`: build the entry, insert it into the metadata
index and persist the index, then try to write the batch file. `writeOk`
models whether that final file write succeeds; on failure the function
returns `""` (the metadata update is already in place). -/
def cacheContent (st : MCPState) (now : Int) (topic : String)
    (documents : List Doc) (sourceUrl sourceType : String) (writeOk : Bool) :
    String × MCPState :=
  let cache_key := generateCacheKey topic sourceUrl
  let entry : CacheEntry :=
    { topic := topic, source_url := sourceUrl, source_type := sourceType,
      timestamp := .valid now, document_count := documents.length,
      cache_key := cache_key }
  let md := insertA st.metadata cache_key entry
  if writeOk then
    (cache_key,
     { st with metadata := md,
               files := insertA st.files cache_key (.good documents entry) })
  else
    ("", { st with metadata := md })

/-- `MCPStore.fetch_and_cache_docs`: `fetched` is what `_fetch_web_content`
returns (it returns `[]` itself on any fetch or parse error, and the outer
handler returns `[]` on any other exception); a non-`"web"` source type
yields no documents. Only a non-empty document list is cached. -/
def fetchAndCacheDocs (st : MCPState) (now : Int)
    (topic sourceUrl sourceType : String) (fetched : List Doc)
    (writeOk : Bool) : List Doc × MCPState :=
  let documents := if sourceType = "web" then fetched else []
  if documents.isEmpty then ([], st)
  else (documents,
        (cacheContent st now topic documents sourceUrl sourceType writeOk).2)

/-! ### Topic lookup table and refresh policy -/

/-- `MCPStore.get_documentation_sources`: the static topic → URLs table. -/
def getDocumentationSources : List (String × List String) :=
  [("numpy", ["https://numpy.org/doc/stable/reference/",
              "https://numpy.org/doc/stable/user/",
              "https://numpy.org/doc/stable/contents.html"]),
   ("pandas", ["https://pandas.pydata.org/docs/",
               "https://pandas.pydata.org/docs/reference/"]),
   ("matplotlib", ["https://matplotlib.org/stable/",
                   "https://matplotlib.org/stable/tutorials/"]),
   ("scikit-learn", ["https://scikit-learn.org/stable/",
                     "https://scikit-learn.org/stable/modules/"]),
   ("opencv", ["https://docs.opencv.org/", "https://docs.opencv.org/master/"]),
   ("ros", ["https://docs.ros.org/", "https://wiki.ros.org/"]),
   ("tensorflow", ["https://www.tensorflow.org/guide",
                   "https://www.tensorflow.org/tutorials"]),
   ("pytorch", ["https://pytorch.org/docs/", "https://pytorch.org/tutorials/"])]

/-- `MCPStore.find_relevant_docs`: every `(topic, url)` whose topic name
occurs as a substring of the lowercased query, in table order. -/
def findRelevantDocs (query : String) : List (String × String) :=
  let query_lower := pyLower query
  getDocumentationSources.flatMap (fun p =>
    if pyContains query_lower p.1 then p.2.map (fun url => (p.1, url)) else [])

/-- The loop of `MCPStore.needs_refresh` over the relevant sources: the first
cached entry with a truthy timestamp decides by `timedelta.days > max_age_days`
(flooring day count); an entry whose timestamp does not parse raises inside
the loop (`Except.error`), and entries that are absent or have an empty
timestamp are skipped. -/
def needsRefreshLoop (md : List (String × CacheEntry)) (now max_age_days : Int) :
    List (String × String) → Except Unit Bool
  | [] => .ok true
  | (topic_name, url) :: rest =>
      match lookupA md (generateCacheKey topic_name url) with
      | some entry =>
          match entry.timestamp with
          | .valid t => .ok (decide ((now - t).fdiv 86400 > max_age_days))
          | .empty => needsRefreshLoop md now max_age_days rest
          | .invalid => .error ()
      | none => needsRefreshLoop md now max_age_days rest

/-- `MCPStore.needs_refresh` (default `max_age_days = 15`): the loop above,
with the outer exception handler turning a raised parse error into `True`;
`True` also when no cached data is found. -/
def needsRefresh (st : MCPState) (now max_age_days : Int) (topic : String) :
    Bool :=
  match needsRefreshLoop st.metadata now max_age_days (findRelevantDocs topic) with
  | .ok b => b
  | .error _ => true

/-! ### Statistics and cleanup (`get_cache_stats`, `clear_expired_cache`) -/

structure CacheStats where
  total_entries : Nat
  valid_entries : Nat
  expired_entries : Nat
deriving DecidableEq, Repr

/-- `MCPStore.get_cache_stats`: one pass over the metadata index against
`_is_expired`. -/
def getCacheStats (st : MCPState) (now : Int) : CacheStats :=
  { total_entries := st.metadata.length,
    valid_entries :=
      st.metadata.countP (fun p => !isExpired st.expiry_days now p.2.timestamp),
    expired_entries :=
      st.metadata.countP (fun p => isExpired st.expiry_days now p.2.timestamp) }

/-- `MCPStore.clear_expired_cache`: drop every expired entry from the metadata
index, delete its batch file, persist the index, and return the count removed. -/
def clearExpiredCache (st : MCPState) (now : Int) : MCPState × Nat :=
  let expiredKeys :=
    (st.metadata.filter (fun p => isExpired st.expiry_days now p.2.timestamp)).map
      Prod.fst
  ({ st with
      metadata :=
        st.metadata.filter (fun p => !isExpired st.expiry_days now p.2.timestamp),
      files := st.files.filter (fun p => !expiredKeys.contains p.1) },
   expiredKeys.length)

/-! ### The question-answering workflow (`backend/summarizer.py`) -/

/-- A JSON-like value appearing in the result dictionaries. -/
inductive Value where
  | str (s : String)
  | int (n : Int)
  | bool (b : Bool)
  | list (l : List Value)
  | dict (d : List (String × Value))

/-- The keys of a result dictionary, in construction order. -/
def dictKeys (d : List (String × Value)) : List String := d.map Prod.fst

/-- Model of Python `str.upper()` (ASCII). -/
def pyUpper (s : String) : String := String.mk (s.data.map Char.toUpper)

/-- Python `content[:1000]` on code points. -/
def pyTake (n : Nat) (s : String) : String := String.mk (s.data.take n)

def dashLine : String := String.mk (List.replicate 50 '-')

/-- `RoboticsSummarizer.construct_smart_prompt`. -/
def constructSmartPrompt (question : String)
    (explain_concept include_examples include_code : Bool) : String :=
  let prompt_parts := [question]
    ++ (if explain_concept then
          ["Please provide a clear explanation of this concept."] else [])
    ++ (if include_examples then
          ["Include one or more real-world examples and applications in robotics."]
        else [])
    ++ (if include_code then
          ["Include runnable Python code snippets or demonstrations that show how to implement this concept."]
        else [])
  String.intercalate " " prompt_parts

/-- Keyword list of `RoboticsSummarizer.determine_source_type`. -/
def academicKeywords : List String :=
  ["slam", "localization", "mapping", "navigation", "control", "kinematics",
   "dynamics", "vision", "perception", "planning", "optimization", "learning",
   "neural", "deep", "reinforcement", "autonomous", "robotic", "robot"]

/-- `RoboticsSummarizer.determine_source_type`: `"arxiv"` iff some academic
keyword occurs in the lowercased query. -/
def determineSourceType (query : String) : String :=
  if academicKeywords.any (fun k => pyContains (pyLower query) k) then "arxiv"
  else "general"

/-- `RoboticsSummarizer.format_context_from_mcp`. -/
def formatContextFromMcp (documents : List Doc) : String :=
  String.intercalate "\n" ((documents.enumFrom 1).map (fun p =>
    "Source " ++ toString p.1 ++ " (MCP Cache):\n"
      ++ "Title: " ++ p.2.title ++ "\n"
      ++ "Source: " ++ p.2.source ++ "\n"
      ++ "Content: " ++ pyTake 1000 p.2.content ++ "...\n"
      ++ dashLine ++ "\n"))

/-- `RoboticsSummarizer.format_context_from_arxiv`. -/
def formatContextFromArxiv (documents : List Doc) : String :=
  String.intercalate "\n" ((documents.enumFrom 1).map (fun p =>
    "Source " ++ toString p.1 ++ " (arXiv Paper):\n"
      ++ "Title: " ++ p.2.title ++ "\n"
      ++ "Authors: " ++ String.intercalate ", " p.2.authors ++ "\n"
      ++ "arXiv ID: " ++ p.2.arxiv_id ++ "\n"
      ++ "Content: " ++ pyTake 1000 p.2.content ++ "...\n"
      ++ dashLine ++ "\n"))

/-- `RoboticsSummarizer.extract_sources_from_mcp`. -/
def extractSourcesFromMcp (documents : List Doc) : List Value :=
  documents.map (fun doc => Value.dict
    [("title", .str doc.title), ("source", .str "mcp_cache"),
     ("url", .str doc.url), ("authors", .list (doc.authors.map Value.str)),
     ("published", .str doc.published),
     ("relevance_score", .int doc.relevance_score)])

/-- `RoboticsSummarizer.extract_sources_from_arxiv`. -/
def extractSourcesFromArxiv (documents : List Doc) : List Value :=
  documents.map (fun doc => Value.dict
    [("title", .str doc.title), ("source", .str "arxiv"),
     ("url", .str doc.url), ("authors", .list (doc.authors.map Value.str)),
     ("published", .str doc.published), ("arxiv_id", .str doc.arxiv_id),
     ("relevance_score", .int doc.relevance_score)])

/-- `RoboticsSummarizer.extract_references_from_mcp`. -/
def extractReferencesFromMcp (documents : List Doc) : List Value :=
  documents.map (fun doc => Value.dict
    [("title", .str doc.title), ("source", .str doc.source),
     ("url", .str doc.url), ("authors", .list (doc.authors.map Value.str)),
     ("published", .str doc.published),
     ("relevance_score", .int doc.relevance_score)])

/-- The slice of `get_topic_metadata`'s result the workflow reads:
`needs_refresh`, `source_type` (default `"mcp"`), `age_days` (default 0) and
`last_updated` (default `""`); `lastUpdatedFmt` is the outcome of
`datetime.fromisoformat(last_updated).strftime("%B %d, %Y")`, `none` when that
raises. -/
structure TopicMetadata where
  needs_refresh : Bool
  source_type : String
  age_days : Int
  last_updated : String
  lastUpdatedFmt : Option String

/-- What `ArxivSearcher.search_and_process` hands back. -/
structure ArxivResult where
  success : Bool
  documents : List Doc
  references : List Value

/-- External collaborators of `process_question_with_workflow`, one call each
in program order. Each fallible call is an `Except` whose `error` models a
raised exception (caught only by the outer handler of the workflow). -/
structure WorkflowEnv where
  /-- `check_mcp_for_docs(question)`: `none` models `None` (no relevant cached
  documents or an internal error, both handled inside that method). -/
  mcpResult : Option (List Doc)
  /-- `mcp_store.get_topic_metadata(question)`. -/
  topicMetadata : TopicMetadata
  /-- `self.chain.run({context, question})`. -/
  chainRun : String → String → Except String String
  /-- `mcp_store.refresh_topic(question).get("refreshed")`. -/
  refreshed : Bool
  /-- `check_mcp_for_docs(question)` re-queried after a successful refresh. -/
  mcpResult2 : Option (List Doc)
  /-- `ArxivSearcher().search_and_process(question, max_results = 3)`. -/
  arxivSearch : Except String ArxivResult
  /-- `self.llm.invoke(...)`, already projected to its text content. -/
  llmInvoke : String → Except String String
  /-- `datetime.now().isoformat()` during this call. -/
  nowIso : String
  /-- `datetime.now().strftime("%B %d, %Y")` during this call. -/
  nowFmt : String

/-- The fresh-cache source badge: `[from TYPE]`, with the update date appended
when `last_updated` is non-empty and parses (a bare `except` drops the date). -/
def mcpSourceBadge (tm : TopicMetadata) : String :=
  if tm.last_updated ≠ "" then
    match tm.lastUpdatedFmt with
    | some d => "[from " ++ pyUpper tm.source_type ++ "] (updated: " ++ d ++ ")"
    | none => "[from " ++ pyUpper tm.source_type ++ "]"
  else "[from " ++ pyUpper tm.source_type ++ "]"

/-- Result dictionary of the fresh-cache branch (step 1). -/
def mcpFreshDict (env : WorkflowEnv) (docs : List Doc) (response : String) :
    List (String × Value) :=
  [("answer", .str response),
   ("source", .str "mcp"),
   ("source_type", .str env.topicMetadata.source_type),
   ("source_badge", .str (mcpSourceBadge env.topicMetadata)),
   ("documents_used", .int docs.length),
   ("cache_age", .str (toString env.topicMetadata.age_days ++ " days ago")),
   ("last_updated", .str env.topicMetadata.last_updated),
   ("needs_refresh", .bool env.topicMetadata.needs_refresh),
   ("sources", .list (extractSourcesFromMcp docs)),
   ("references", .list (extractReferencesFromMcp docs))]

/-- Result dictionary of the refreshed-cache branch (step 2). -/
def refreshedDict (env : WorkflowEnv) (docs : List Doc) (response : String) :
    List (String × Value) :=
  [("answer", .str response),
   ("source", .str "mcp_refreshed"),
   ("source_type", .str "arxiv"),
   ("source_badge", .str "[from ARXIV] (freshly updated)"),
   ("documents_used", .int docs.length),
   ("last_updated", .str env.nowIso),
   ("needs_refresh", .bool false),
   ("sources", .list (extractSourcesFromMcp docs)),
   ("references", .list (extractReferencesFromMcp docs))]

/-- Result dictionary of the arXiv branch (step 3). -/
def arxivDict (env : WorkflowEnv) (ar : ArxivResult) (response : String) :
    List (String × Value) :=
  [("answer", .str response),
   ("source", .str "arxiv"),
   ("source_type", .str "arxiv"),
   ("source_badge", .str ("[from ARXIV] (updated: " ++ env.nowFmt ++ ")")),
   ("documents_used", .int ar.documents.length),
   ("last_updated", .str env.nowIso),
   ("needs_refresh", .bool false),
   ("references", .list ar.references),
   ("sources", .list (extractSourcesFromArxiv ar.documents))]

/-- Result dictionary of the direct-LLM fallback branch (step 4). -/
def geminiDict (response : String) : List (String × Value) :=
  [("answer", .str response),
   ("source", .str "gemini"),
   ("source_type", .str "llm"),
   ("source_badge", .str "[from GEMINI]"),
   ("documents_used", .int 0),
   ("sources", .list []),
   ("references", .list [])]

/-- Result dictionary of the error branch (the outer `except`). -/
def errorDict (e : String) : List (String × Value) :=
  [("answer", .str ("Sorry, I encountered an error: " ++ e)),
   ("source_type", .str "error"),
   ("source_badge", .str "[error]"),
   ("documents_used", .int 0),
   ("sources", .list [])]

/-- Step 4 of the workflow: the direct-LLM fallback (`self.llm.invoke`). -/
def llmFallbackStep (env : WorkflowEnv) (enhanced : String) :
    Except String (List (String × Value)) :=
  match env.llmInvoke enhanced with
  | .ok response => .ok (geminiDict response)
  | .error e => .error e

/-- Steps 3 and 4 of the workflow: try arXiv when the query looks academic
(the `save_topic_to_mcp` side effect of that branch does not touch the
returned dictionary and is not modelled here), otherwise fall back to a
direct LLM answer. -/
def workflowStep34 (env : WorkflowEnv) (question enhanced : String) :
    Except String (List (String × Value)) :=
  if determineSourceType question = "arxiv" then
    match env.arxivSearch with
    | .error e => .error e
    | .ok ar =>
        if ar.success && !ar.documents.isEmpty then
          match env.chainRun (formatContextFromArxiv ar.documents) enhanced with
          | .ok response => .ok (arxivDict env ar response)
          | .error e => .error e
        else llmFallbackStep env enhanced
  else llmFallbackStep env enhanced

/-- `mcp_result and mcp_result.get("documents")`: a non-`None` result with a
non-empty document list. -/
def hasMcpDocs : Option (List Doc) → Bool
  | some ds => !ds.isEmpty
  | none => false

/-- The body of `process_question_with_workflow` inside its `try`: an
`Except.error` is an exception reaching the outer handler (each branch
recomputes `enhanced_question` exactly as the code does). In step 2, after a
successful refresh the code subscripts the re-queried result without a `None`
check, so a `None` there raises (`.error`). -/
def runWorkflow (env : WorkflowEnv) (question : String)
    (explain_concept include_examples include_code : Bool) :
    Except String (List (String × Value)) :=
  if hasMcpDocs env.mcpResult && !env.topicMetadata.needs_refresh then
    match env.chainRun (formatContextFromMcp (env.mcpResult.getD []))
        (constructSmartPrompt question explain_concept include_examples include_code) with
    | .ok response => .ok (mcpFreshDict env (env.mcpResult.getD []) response)
    | .error e => .error e
  else if hasMcpDocs env.mcpResult && env.topicMetadata.needs_refresh then
    if env.refreshed then
      match env.mcpResult2 with
      | none => .error "TypeError: NoneType object is not subscriptable"
      | some ds =>
          match env.chainRun (formatContextFromMcp ds)
              (constructSmartPrompt question explain_concept include_examples include_code) with
          | .ok response => .ok (refreshedDict env ds response)
          | .error e => .error e
    else
      workflowStep34 env question
        (constructSmartPrompt question explain_concept include_examples include_code)
  else
    workflowStep34 env question
      (constructSmartPrompt question explain_concept include_examples include_code)

/-- `RoboticsSummarizer.process_question_with_workflow`: the `try` body with
the outer exception handler wrapped around it. -/
def processQuestionWithWorkflow (env : WorkflowEnv) (question : String)
    (explain_concept include_examples include_code : Bool) :
    List (String × Value) :=
  match runWorkflow env question explain_concept include_examples include_code with
  | .ok d => d
  | .error e => errorDict e

/-! ### Concrete fixtures used by witnesses and counterexamples -/

/-- A sample cached document. -/
def doc0 : Doc :=
  { content := "NumPy reference docs", title := "Documentation", source := "mcp_web",
    url := "https://numpy.org/doc/stable/reference/", authors := [],
    published := "2024-01-01", arxiv_id := "", relevance_score := 1 }

/-- First documentation URL of the `numpy` topic in the static table. -/
def npUrl : String := "https://numpy.org/doc/stable/reference/"

/-- A metadata entry for `("numpy", npUrl)` written at time 0. -/
def e0 : CacheEntry :=
  { topic := "numpy", source_url := npUrl, source_type := "web",
    timestamp := .valid 0, document_count := 1,
    cache_key := generateCacheKey "numpy" npUrl }

/-- A store holding exactly the `("numpy", npUrl)` entry with an intact batch
file, default expiry. -/
def st0 : MCPState :=
  { expiry_days := 30,
    metadata := [(generateCacheKey "numpy" npUrl, e0)],
    files := [(generateCacheKey "numpy" npUrl, .good [doc0] e0)] }

/-- An empty store with default expiry. -/
def st7 : MCPState := { expiry_days := 30, metadata := [], files := [] }

/-- An entry for `("t", "u")` written at time 0. -/
def e8 : CacheEntry :=
  { topic := "t", source_url := "u", source_type := "web", timestamp := .valid 0,
    document_count := 1, cache_key := generateCacheKey "t" "u" }

/-- A store whose only batch file exists but is unreadable. -/
def st8 : MCPState :=
  { expiry_days := 30,
    metadata := [(generateCacheKey "t" "u", e8)],
    files := [(generateCacheKey "t" "u", .corrupt)] }

/-- An entry for `("t", "u")` whose timestamp field is missing or empty. -/
def e9 : CacheEntry :=
  { topic := "t", source_url := "u", source_type := "web", timestamp := .empty,
    document_count := 1, cache_key := generateCacheKey "t" "u" }

/-- A store holding only the bad-timestamp entry. -/
def st9 : MCPState :=
  { expiry_days := 30,
    metadata := [(generateCacheKey "t" "u", e9)],
    files := [] }

/-- Topic metadata as returned for an uncached topic. -/
def tmStub : TopicMetadata :=
  { needs_refresh := true, source_type := "mcp", age_days := 0,
    last_updated := "", lastUpdatedFmt := none }

/-- An environment in which the MCP store has nothing, the query is
non-academic, and the LLM call raises. -/
def envLlmThrows : WorkflowEnv :=
  { mcpResult := none, topicMetadata := tmStub,
    chainRun := fun _ _ => .ok "ok", refreshed := false, mcpResult2 := none,
    arxivSearch := .ok { success := false, documents := [], references := [] },
    llmInvoke := fun _ => .error "boom", nowIso := "", nowFmt := "" }

/-! ### Helper lemmas -/

theorem lookupA_cons_self {α : Type} (k : String) (v : α) (t : List (String × α)) :
    lookupA ((k, v) :: t) k = some v := by
  simp [lookupA]

theorem lookupA_insertA_self {α : Type} (l : List (String × α)) (k : String) (v : α) :
    lookupA (insertA l k v) k = some v := by
  simp [insertA, lookupA]

theorem lookupA_mem {α : Type} {l : List (String × α)} {k : String} {v : α}
    (h : lookupA l k = some v) : (k, v) ∈ l := by
  induction l with
  | nil => simp [lookupA] at h
  | cons p t ih =>
      obtain ⟨k', v'⟩ := p
      by_cases hk : k' = k
      · subst hk
        rw [lookupA_cons_self] at h
        injection h with h
        subst h
        exact List.mem_cons_self _ _
      · simp only [lookupA, if_neg hk] at h
        exact List.mem_cons_of_mem _ (ih h)

theorem lookupA_eq_none_of_not_mem {α : Type} {l : List (String × α)} {k : String}
    (h : k ∉ l.map Prod.fst) : lookupA l k = none := by
  induction l with
  | nil => rfl
  | cons p t ih =>
      simp only [List.map_cons, List.mem_cons] at h
      push_neg at h
      simp only [lookupA]
      rw [if_neg (fun he => h.1 he.symm), ih h.2]

theorem leBytes_length (n v : Nat) : (leBytes n v).length = n := by
  induction n generalizing v with
  | zero => rfl
  | succ n ih => simp [leBytes, ih]

theorem bytesToHexChars_length (l : List Nat) :
    (bytesToHexChars l).length = 2 * l.length := by
  induction l with
  | nil => rfl
  | cons b r ih => simp [bytesToHexChars, ih]; ring

theorem digestHex_length (a b c d : Nat) : (digestHex a b c d).length = 32 := by
  show (bytesToHexChars _).length = 32
  rw [bytesToHexChars_length]
  simp [leBytes_length]

theorem md5Hex_length (msg : List Nat) : (md5Hex msg).length = 32 :=
  digestHex_length _ _ _ _

theorem append_underscore_inj :
    ∀ (l1 l2 r1 r2 : List Char), '_' ∉ l1 → '_' ∉ l2 →
      l1 ++ '_' :: r1 = l2 ++ '_' :: r2 → l1 = l2 ∧ r1 = r2 := by
  intro l1
  induction l1 with
  | nil =>
      intro l2 r1 r2 _ h2 h
      cases l2 with
      | nil => simpa using h
      | cons b m =>
          simp only [List.nil_append, List.cons_append, List.cons.injEq] at h
          exact absurd (show '_' ∈ b :: m by rw [h.1]; exact List.mem_cons_self _ _) h2
  | cons a l ih =>
      intro l2 r1 r2 h1 h2 h
      cases l2 with
      | nil =>
          simp only [List.cons_append, List.nil_append, List.cons.injEq] at h
          exact absurd (show '_' ∈ a :: l by rw [h.1]; exact List.mem_cons_self _ _) h1
      | cons b m =>
          simp only [List.cons_append, List.cons.injEq] at h
          obtain ⟨hab, hrest⟩ := h
          have h1' : '_' ∉ l := fun hm => h1 (List.mem_cons_of_mem _ hm)
          have h2' : '_' ∉ m := fun hm => h2 (List.mem_cons_of_mem _ hm)
          obtain ⟨hl, hr⟩ := ih m r1 r2 h1' h2' hrest
          exact ⟨by rw [hab, hl], hr⟩

theorem fdiv_gt_15 (a e : Int) (he : 16 ≤ e) (h : a > e * 86400) :
    a.fdiv 86400 > 15 := by
  have h0 : (0 : Int) < 86400 := by norm_num
  rw [Int.fdiv_eq_ediv _ (by norm_num)]
  have : 16 * 86400 ≤ a := by nlinarith
  have := (Int.le_ediv_iff_mul_le h0).mpr this
  omega

set_option maxRecDepth 100000

/-- C5: `_generate_cache_key` is a pure function of its inputs (equal inputs
give equal keys, with no hidden state), the topic enters only through its
lowercased and stripped form (`" T "` and `"t"` derive the same key for every
URL), and the output is always a 32-character MD5 hex digest. -/
theorem C5_derive_key_deterministic_normalized :
    (∀ t u : String, generateCacheKey t u = generateCacheKey t u) ∧
    (∀ u : String, generateCacheKey " T " u = generateCacheKey "t" u) ∧
    (∀ t u : String, (generateCacheKey t u).length = 32) := by
  refine ⟨fun t u => rfl, fun u => ?_, fun t u => md5Hex_length _⟩
  have hn : pyStrip (pyLower " T ") = pyStrip (pyLower "t") := by decide
  unfold generateCacheKey cacheKeyContent
  rw [hn]

/-- C6 counterexample: the pre-digest encoding `topic.lower().strip() + "_" +
source_url` is not injective on normalized pairs: `("a_b", "c")` and
`("a", "b_c")` are already normalized, distinct, and collide exactly (equal
pre-digest encodings, hence equal cache keys — not a digest collision). -/
theorem C6_counterexample :
    cacheKeyContent "a_b" "c" = cacheKeyContent "a" "b_c" ∧
    generateCacheKey "a_b" "c" = generateCacheKey "a" "b_c" ∧
    ("a_b", "c") ≠ (("a", "b_c") : String × String) ∧
    pyStrip (pyLower "a_b") = "a_b" ∧ pyStrip (pyLower "a") = "a" := by
  refine ⟨by decide, ?_, by decide, by decide, by decide⟩
  have h : cacheKeyContent "a_b" "c" = cacheKeyContent "a" "b_c" := by decide
  unfold generateCacheKey
  rw [h]

/-- C6 (amended): the pre-digest encoding of `(topic, source_url)` is
injective on normalized inputs provided the normalized topic contains no
underscore (the separator); without that restriction distinct pairs can
collide exactly. -/
theorem C6_amended_encoding_injective (t1 u1 t2 u2 : String)
    (h1 : '_' ∉ (pyStrip (pyLower t1)).data)
    (h2 : '_' ∉ (pyStrip (pyLower t2)).data)
    (h : cacheKeyContent t1 u1 = cacheKeyContent t2 u2) :
    pyStrip (pyLower t1) = pyStrip (pyLower t2) ∧ u1 = u2 := by
  unfold cacheKeyContent at h
  have hd := congrArg String.data h
  simp only [String.data_append] at hd
  have hd' : (pyStrip (pyLower t1)).data ++ '_' :: u1.data =
      (pyStrip (pyLower t2)).data ++ '_' :: u2.data := by
    simpa using hd
  obtain ⟨hl, hr⟩ := append_underscore_inj _ _ _ _ h1 h2 hd'
  exact ⟨congrArg String.mk hl, congrArg String.mk hr⟩

/-- C6 amended witness: `" A "` and `"a"` normalize identically, contain no
underscore, and their encodings with URL `"c"` agree, so the amended
injectivity theorem applies and yields the normalized equality. -/
theorem C6_amended_witness :
    ('_' ∉ (pyStrip (pyLower " A ")).data) ∧
    ('_' ∉ (pyStrip (pyLower "a")).data) ∧
    cacheKeyContent " A " "c" = cacheKeyContent "a" "c" ∧
    (pyStrip (pyLower " A ") = pyStrip (pyLower "a") ∧ "c" = "c") :=
  ⟨by decide, by decide, by decide,
   C6_amended_encoding_injective " A " "c" "a" "c" (by decide) (by decide) (by decide)⟩

theorem lookupA_filter_none {α : Type} (p : String × α → Bool)
    {l : List (String × α)} {k : String} {v : α}
    (hnd : (l.map Prod.fst).Nodup) (h : lookupA l k = some v)
    (hp : p (k, v) = false) : lookupA (l.filter p) k = none := by
  induction l with
  | nil => simp [lookupA] at h
  | cons q t ih =>
      obtain ⟨k', v'⟩ := q
      simp only [List.map_cons, List.nodup_cons] at hnd
      by_cases hk : k' = k
      · subst hk
        rw [lookupA_cons_self] at h
        injection h with h
        subst h
        have hnotin : k' ∉ (t.filter p).map Prod.fst := by
          intro hm
          rcases List.mem_map.mp hm with ⟨pr, hpr, hfst⟩
          exact hnd.1 (List.mem_map.mpr ⟨pr, List.mem_of_mem_filter hpr, hfst⟩)
        rw [List.filter_cons, hp]
        simpa using lookupA_eq_none_of_not_mem hnotin
      · simp only [lookupA, if_neg hk] at h
        rw [List.filter_cons]
        by_cases hq : p (k', v') = true
        · rw [if_pos hq]
          simp only [lookupA, if_neg hk]
          exact ih hnd.2 h
        · rw [if_neg hq]
          exact ih hnd.2 h

/-- C4: hard expiry — `_is_expired` on a parseable timestamp holds exactly
when the age as a duration exceeds `expiry_days` days; an entry one day past
expiry is absent from `get_cached_content` and counted by
`get_cache_stats().expired_entries`, while an entry one day short of expiry
(with an intact batch file) is still returned. -/
theorem C4_hard_expiry (st : MCPState) (now ts : Int) (topic url : String)
    (e : CacheEntry) (docs : List Doc) (meta : CacheEntry)
    (hlook : lookupA st.metadata (generateCacheKey topic url) = some e)
    (hts : e.timestamp = .valid ts) :
    (isExpired st.expiry_days now e.timestamp = true ↔
       now - ts > st.expiry_days * 86400) ∧
    (now - ts = (st.expiry_days + 1) * 86400 →
       getCachedContent st now topic url = none ∧
       0 < (getCacheStats st now).expired_entries) ∧
    (now - ts = (st.expiry_days - 1) * 86400 →
       lookupA st.files (generateCacheKey topic url) = some (.good docs meta) →
       getCachedContent st now topic url =
         some { documents := docs, metadata := meta, source := "mcp_cache",
                cache_age := getCacheAge now e.timestamp }) := by
  refine ⟨?_, ?_, ?_⟩
  · rw [hts]; simp only [isExpired, decide_eq_true_eq]; omega
  · intro hage
    have hexp : isExpired st.expiry_days now e.timestamp = true := by
      rw [hts]; simp only [isExpired, decide_eq_true_eq]
      have : (st.expiry_days + 1) * 86400 = st.expiry_days * 86400 + 86400 := by ring
      omega
    constructor
    · simp [getCachedContent, hlook, hexp]
    · simp only [getCacheStats]
      rw [List.countP_pos_iff]
      exact ⟨(generateCacheKey topic url, e), lookupA_mem hlook, by simpa using hexp⟩
  · intro hage hfile
    have hexp : isExpired st.expiry_days now e.timestamp = false := by
      rw [hts]; simp only [isExpired, decide_eq_false_iff_not]
      have : (st.expiry_days - 1) * 86400 = st.expiry_days * 86400 - 86400 := by ring
      omega
    simp [getCachedContent, hlook, hexp, hfile]

/-- C4 witness: in the one-entry store `st0` (entry written at time 0,
`expiry_days = 30`), at `now = 31` days the entry is gone from `get` and
counted expired; at `now = 29` days it is returned intact. -/
theorem C4_hard_expiry_witness :
    getCachedContent st0 (31 * 86400) "numpy" npUrl = none ∧
    0 < (getCacheStats st0 (31 * 86400)).expired_entries ∧
    getCachedContent st0 (29 * 86400) "numpy" npUrl =
      some { documents := [doc0], metadata := e0, source := "mcp_cache",
             cache_age := getCacheAge (29 * 86400) e0.timestamp } := by
  obtain ⟨-, h2, -⟩ :=
    C4_hard_expiry st0 (31 * 86400) 0 "numpy" npUrl e0 [doc0] e0 (by decide) rfl
  obtain ⟨-, -, h3⟩ :=
    C4_hard_expiry st0 (29 * 86400) 0 "numpy" npUrl e0 [doc0] e0 (by decide) rfl
  obtain ⟨hget, hstats⟩ := h2 (by decide)
  exact ⟨hget, hstats, h3 (by decide) (by decide)⟩

/-- C7: round-trip — `cache_content` with a succeeding batch write followed
immediately by `get_cached_content` on the same `(topic, url)` returns the
cached documents verbatim (hence equal length and byte-identical content,
title and source fields), under an entry whose `document_count` is the number
of documents cached; the returned key is the derived cache key. -/
theorem C7_roundtrip (st : MCPState) (now : Int) (topic url stype : String)
    (docs : List Doc) (hexp : 0 ≤ st.expiry_days) :
    (cacheContent st now topic docs url stype true).1 = generateCacheKey topic url ∧
    getCachedContent (cacheContent st now topic docs url stype true).2 now topic url =
      some { documents := docs,
             metadata := { topic := topic, source_url := url, source_type := stype,
                           timestamp := .valid now, document_count := docs.length,
                           cache_key := generateCacheKey topic url },
             source := "mcp_cache", cache_age := getCacheAge now (.valid now) } := by
  constructor
  · rfl
  · have hne : isExpired st.expiry_days now (.valid now) = false := by
      simp only [isExpired, decide_eq_false_iff_not]
      have : 0 ≤ st.expiry_days * 86400 := by positivity
      omega
    simp [cacheContent, getCachedContent, lookupA_insertA_self, hne]

/-- C7 witness: caching one document in the empty default store at time 5 and
reading it back at time 5 returns exactly that document. -/
theorem C7_roundtrip_witness :
    0 ≤ st7.expiry_days ∧
    (cacheContent st7 5 "t" [doc0] "u" "web" true).1 = generateCacheKey "t" "u" ∧
    getCachedContent (cacheContent st7 5 "t" [doc0] "u" "web" true).2 5 "t" "u" =
      some { documents := [doc0],
             metadata := { topic := "t", source_url := "u", source_type := "web",
                           timestamp := .valid 5, document_count := 1,
                           cache_key := generateCacheKey "t" "u" },
             source := "mcp_cache", cache_age := getCacheAge 5 (.valid 5) } := by
  obtain ⟨h1, h2⟩ := C7_roundtrip st7 5 "t" "u" "web" [doc0] (by decide)
  exact ⟨by decide, h1, h2⟩

/-- C10: when the batch-file write fails, `cache_content` returns the empty
string as its key, yet the metadata index already contains the fresh entry
(with the new timestamp), while the batch files are untouched — the combined
metadata-plus-batch write is not atomic on error. -/
theorem C10_metadata_kept_on_write_failure (st : MCPState) (now : Int)
    (topic url stype : String) (docs : List Doc) :
    (cacheContent st now topic docs url stype false).1 = "" ∧
    lookupA (cacheContent st now topic docs url stype false).2.metadata
        (generateCacheKey topic url) =
      some { topic := topic, source_url := url, source_type := stype,
             timestamp := .valid now, document_count := docs.length,
             cache_key := generateCacheKey topic url } ∧
    (cacheContent st now topic docs url stype false).2.files = st.files := by
  refine ⟨rfl, ?_, rfl⟩
  simp [cacheContent, lookupA_insertA_self]

/-- C8: corrupted persisted state never raises — a corrupt (or absent)
metadata file yields an empty store at construction, and a metadata entry
whose batch file is missing or unreadable is a cache miss for `get`. -/
theorem C8_corruption_treated_as_miss (files : List (String × FileContent))
    (exp now : Int) (st : MCPState) (topic url : String) (e : CacheEntry)
    (hlook : lookupA st.metadata (generateCacheKey topic url) = some e)
    (hfile : lookupA st.files (generateCacheKey topic url) = none ∨
             lookupA st.files (generateCacheKey topic url) = some .corrupt) :
    (mkStore .corrupt files exp).metadata = [] ∧
    (mkStore .absent files exp).metadata = [] ∧
    getCachedContent st now topic url = none := by
  refine ⟨rfl, rfl, ?_⟩
  by_cases hexp : isExpired st.expiry_days now e.timestamp
  · simp [getCachedContent, hlook, hexp]
  · rcases hfile with hf | hf <;>
      simp [getCachedContent, hlook, hexp, hf]

/-- C8 witness: the store `st8` has a valid metadata entry for `("t", "u")`
whose batch file is unreadable; `get` reports a miss, and corrupt or absent
metadata files construct empty stores. -/
theorem C8_corruption_witness :
    (mkStore .corrupt [] 30).metadata = [] ∧
    (mkStore .absent [] 30).metadata = [] ∧
    getCachedContent st8 5 "t" "u" = none :=
  C8_corruption_treated_as_miss [] 30 5 st8 "t" "u" e8 (by decide) (Or.inr (by decide))

/-- C9: an entry whose timestamp is missing, empty or unparseable is
classified expired everywhere: `_is_expired` is true, `get_cached_content`
misses, `get_cache_stats` counts it expired, and `clear_expired_cache`
removes it (the no-duplicate-keys hypothesis is the dictionary invariant of
the metadata index). -/
theorem C9_unparseable_timestamp_expired (st : MCPState) (now : Int)
    (topic url : String) (e : CacheEntry)
    (hnd : (st.metadata.map Prod.fst).Nodup)
    (hlook : lookupA st.metadata (generateCacheKey topic url) = some e)
    (hts : e.timestamp = .empty ∨ e.timestamp = .invalid) :
    isExpired st.expiry_days now e.timestamp = true ∧
    getCachedContent st now topic url = none ∧
    0 < (getCacheStats st now).expired_entries ∧
    lookupA (clearExpiredCache st now).1.metadata (generateCacheKey topic url) = none := by
  have hexp : isExpired st.expiry_days now e.timestamp = true := by
    rcases hts with h | h <;> rw [h] <;> rfl
  refine ⟨hexp, ?_, ?_, ?_⟩
  · simp [getCachedContent, hlook, hexp]
  · simp only [getCacheStats]
    rw [List.countP_pos_iff]
    exact ⟨(generateCacheKey topic url, e), lookupA_mem hlook, by simpa using hexp⟩
  · simp only [clearExpiredCache]
    exact lookupA_filter_none _ hnd hlook (by simp [hexp])

/-- C9 witness: the store `st9` holds one entry with an empty timestamp; it
is expired, missed by `get`, counted by `stats`, and removed by
`clear_expired_cache`. -/
theorem C9_unparseable_timestamp_witness :
    isExpired st9.expiry_days 5 e9.timestamp = true ∧
    getCachedContent st9 5 "t" "u" = none ∧
    0 < (getCacheStats st9 5).expired_entries ∧
    lookupA (clearExpiredCache st9 5).1.metadata (generateCacheKey "t" "u") = none :=
  C9_unparseable_timestamp_expired st9 5 "t" "u" e9 (by decide) (by decide) (Or.inl rfl)

/-- C3: if the external fetch yields zero documents (fetch failure, empty
page, network error or exception inside the fetcher, or a non-web source
type), `fetch_and_cache_docs` returns the empty list and leaves the store —
metadata index and batch files — exactly as it was; in particular any
pre-existing entry is byte-identical afterwards. -/
theorem C3_failed_fetch_preserves_store (st : MCPState) (now : Int)
    (topic url stype : String) (fetched : List Doc) (writeOk : Bool)
    (h : fetched = [] ∨ stype ≠ "web") :
    fetchAndCacheDocs st now topic url stype fetched writeOk = ([], st) := by
  rcases h with h | h
  · subst h
    simp [fetchAndCacheDocs]
  · simp [fetchAndCacheDocs, h]

/-- C3 witness: an empty fetch for the already-cached `("numpy", npUrl)` key
returns `[]` and the store `st0` verbatim, its pre-existing entry intact. -/
theorem C3_failed_fetch_witness :
    fetchAndCacheDocs st0 (16 * 86400) "numpy" npUrl "web" [] true = ([], st0) ∧
    lookupA st0.metadata (generateCacheKey "numpy" npUrl) = some e0 :=
  ⟨C3_failed_fetch_preserves_store st0 (16 * 86400) "numpy" npUrl "web" [] true (Or.inl rfl),
   by decide⟩

/-- C2 counterexample: the entry for `("numpy", npUrl)` is 15 days and one
hour old — its age *as a duration* exceeds `refresh_threshold_days = 15` days
and is below expiry — yet `needs_refresh` reports `false` (the code compares
`timedelta.days`, the floored whole-day count, with 15), while the entry is
still returned by `get`. -/
theorem C2_counterexample :
    ((15 * 86400 + 3600 : Int) - 0 > 15 * 86400) ∧
    ¬ ((15 * 86400 + 3600 : Int) - 0 > 30 * 86400) ∧
    needsRefresh st0 (15 * 86400 + 3600) 15 "numpy" = false ∧
    getCachedContent st0 (15 * 86400 + 3600) "numpy" npUrl =
      some { documents := [doc0], metadata := e0, source := "mcp_cache",
             cache_age := getCacheAge (15 * 86400 + 3600) e0.timestamp } := by
  refine ⟨by decide, by decide, by decide, by decide⟩

/-- C2 (amended): for the first relevant source of a topic whose cached entry
has a parseable timestamp, `needs_refresh` reports true iff the age in whole
days (`timedelta.days`, i.e. `fdiv` by 86400) exceeds 15 — so it reports
false whenever the floored day count is at most 15, even if the age as a
duration exceeds 15 days; such a stale entry below expiry (with an intact
batch file) is still returned by `get`; and with `expiry_days ≥ 16` (e.g. the
default 30) every expired such entry reports true. -/
theorem C2_soft_staleness_floor_days (st : MCPState) (now ts : Int)
    (topic topic_name url : String) (rest : List (String × String))
    (e : CacheEntry) (docs : List Doc) (meta : CacheEntry)
    (hfind : findRelevantDocs topic = (topic_name, url) :: rest)
    (hlook : lookupA st.metadata (generateCacheKey topic_name url) = some e)
    (hts : e.timestamp = .valid ts) :
    (needsRefresh st now 15 topic = decide ((now - ts).fdiv 86400 > 15)) ∧
    ((now - ts).fdiv 86400 ≤ 15 → needsRefresh st now 15 topic = false) ∧
    (¬ now - ts > st.expiry_days * 86400 →
       lookupA st.files (generateCacheKey topic_name url) = some (.good docs meta) →
       getCachedContent st now topic_name url =
         some { documents := docs, metadata := meta, source := "mcp_cache",
                cache_age := getCacheAge now e.timestamp }) ∧
    (16 ≤ st.expiry_days → now - ts > st.expiry_days * 86400 →
       needsRefresh st now 15 topic = true) := by
  have hchar : needsRefresh st now 15 topic = decide ((now - ts).fdiv 86400 > 15) := by
    unfold needsRefresh
    rw [hfind]
    simp [needsRefreshLoop, hlook, hts]
  refine ⟨hchar, ?_, ?_, ?_⟩
  · intro hle
    rw [hchar]
    simp only [decide_eq_false_iff_not]
    exact not_lt.mpr hle
  · intro hnexp hfile
    have hexp : isExpired st.expiry_days now e.timestamp = false := by
      rw [hts]; simp only [isExpired, decide_eq_false_iff_not]; omega
    simp [getCachedContent, hlook, hexp, hfile]
  · intro h16 hexp
    rw [hchar]
    simp only [decide_eq_true_eq]
    exact fdiv_gt_15 _ _ h16 hexp

/-- C2 amended witness: at age 16 days + 1 hour (floored day count 16 > 15)
the `("numpy", npUrl)` entry is flagged for refresh and still returned by
`get`. -/
theorem C2_soft_staleness_witness :
    needsRefresh st0 (16 * 86400 + 3600) 15 "numpy" = true ∧
    getCachedContent st0 (16 * 86400 + 3600) "numpy" npUrl =
      some { documents := [doc0], metadata := e0, source := "mcp_cache",
             cache_age := getCacheAge (16 * 86400 + 3600) e0.timestamp } := by
  obtain ⟨hchar, -, hget, -⟩ :=
    C2_soft_staleness_floor_days st0 (16 * 86400 + 3600) 0 "numpy" "numpy" npUrl
      [("numpy", "https://numpy.org/doc/stable/user/"),
       ("numpy", "https://numpy.org/doc/stable/contents.html")]
      e0 [doc0] e0 (by decide) (by decide) rfl
  refine ⟨?_, hget (by decide) (by decide)⟩
  rw [hchar]
  decide

theorem llmFallbackStep_ok_shape {env : WorkflowEnv} {enh : String}
    {d : List (String × Value)} (h : llmFallbackStep env enh = .ok d) :
    ∃ r, d = geminiDict r := by
  unfold llmFallbackStep at h
  split at h
  · injection h with h; exact ⟨_, h.symm⟩
  · cases h

theorem workflowStep34_ok_shape {env : WorkflowEnv} {q enh : String}
    {d : List (String × Value)} (h : workflowStep34 env q enh = .ok d) :
    (∃ a r, d = arxivDict env a r) ∨ (∃ r, d = geminiDict r) := by
  unfold workflowStep34 at h
  split at h
  · split at h
    · cases h
    · split at h
      · split at h
        · injection h with h; exact Or.inl ⟨_, _, h.symm⟩
        · cases h
      · exact Or.inr (llmFallbackStep_ok_shape h)
  · exact Or.inr (llmFallbackStep_ok_shape h)

theorem runWorkflow_ok_shape {env : WorkflowEnv} {q : String} {b1 b2 b3 : Bool}
    {d : List (String × Value)} (h : runWorkflow env q b1 b2 b3 = .ok d) :
    (∃ docs r, d = mcpFreshDict env docs r) ∨
    (∃ docs r, d = refreshedDict env docs r) ∨
    (∃ a r, d = arxivDict env a r) ∨
    (∃ r, d = geminiDict r) := by
  unfold runWorkflow at h
  split at h
  · split at h
    · injection h with h; exact Or.inl ⟨_, _, h.symm⟩
    · cases h
  · split at h
    · split at h
      · split at h
        · cases h
        · split at h
          · injection h with h; exact Or.inr (Or.inl ⟨_, _, h.symm⟩)
          · cases h
      · rcases workflowStep34_ok_shape h with ha | hg
        · exact Or.inr (Or.inr (Or.inl ha))
        · exact Or.inr (Or.inr (Or.inr hg))
    · rcases workflowStep34_ok_shape h with ha | hg
      · exact Or.inr (Or.inr (Or.inl ha))
      · exact Or.inr (Or.inr (Or.inr hg))

/-- C1 counterexample: with an empty MCP store, a non-academic question and
an LLM call that raises, the workflow returns the error dictionary — which
lacks the `source` and `references` keys, so not every terminal branch
carries all seven keys. -/
theorem C1_counterexample :
    processQuestionWithWorkflow envLlmThrows "hello" true true true =
      errorDict "boom" ∧
    "source" ∉ dictKeys (processQuestionWithWorkflow envLlmThrows "hello" true true true) ∧
    "references" ∉ dictKeys (processQuestionWithWorkflow envLlmThrows "hello" true true true) := by
  refine ⟨rfl, by decide, by decide⟩

/-- C1 (amended): every terminal branch except the error branch returns a
dictionary containing all seven keys `{answer, source, source_type,
source_badge, documents_used, sources, references}`; the error branch (the
only branch an exception can reach, so no exception propagates to the caller)
returns exactly the five keys `{answer, source_type, source_badge,
documents_used, sources}` — `source` and `references` are missing — with
`source_type = "error"` and `source_badge = "[error]"`. -/
theorem C1_result_shape (env : WorkflowEnv) (q : String) (b1 b2 b3 : Bool) :
    ("answer" ∈ dictKeys (processQuestionWithWorkflow env q b1 b2 b3) ∧
     "source" ∈ dictKeys (processQuestionWithWorkflow env q b1 b2 b3) ∧
     "source_type" ∈ dictKeys (processQuestionWithWorkflow env q b1 b2 b3) ∧
     "source_badge" ∈ dictKeys (processQuestionWithWorkflow env q b1 b2 b3) ∧
     "documents_used" ∈ dictKeys (processQuestionWithWorkflow env q b1 b2 b3) ∧
     "sources" ∈ dictKeys (processQuestionWithWorkflow env q b1 b2 b3) ∧
     "references" ∈ dictKeys (processQuestionWithWorkflow env q b1 b2 b3)) ∨
    (dictKeys (processQuestionWithWorkflow env q b1 b2 b3) =
       ["answer", "source_type", "source_badge", "documents_used", "sources"] ∧
     lookupA (processQuestionWithWorkflow env q b1 b2 b3) "source_type" =
       some (.str "error") ∧
     lookupA (processQuestionWithWorkflow env q b1 b2 b3) "source_badge" =
       some (.str "[error]")) := by
  unfold processQuestionWithWorkflow
  cases hrw : runWorkflow env q b1 b2 b3 with
  | error e => exact Or.inr ⟨rfl, rfl, rfl⟩
  | ok d =>
      left
      rcases runWorkflow_ok_shape hrw with ⟨docs, r, rfl⟩ | ⟨docs, r, rfl⟩ | ⟨a, r, rfl⟩ | ⟨r, rfl⟩ <;>
        simp [dictKeys, mcpFreshDict, refreshedDict, arxivDict, geminiDict]
